import Mathlib

/-!
Verification of the event-driven-social-automation repository: a shallow
embedding of `src/backend/posts/models.py` and
`src/backend/helpers/linkedin.py`, followed by theorems settling the
behavioural claims about them.

Python exceptions are modelled by an explicit error value carrying the
runtime type of the exception and its message string; fallible operations
return `Except PyError _`.  Timestamps are modelled as `Nat`.  The outbound
HTTP layer is modelled as an oracle `HttpRequest → HttpResponse` carried in
an environment, and `share_to_linkedin` additionally returns the list of
HTTP requests it issued, so that "no HTTP call is made" and "exactly one
outbound call" are stated as facts about that trace.
-/

namespace SocialAutomation

/-- The runtime type of a raised Python exception.  `exception` stands for
the bare built-in `Exception` class; `doesNotExist` and
`multipleObjectsReturned` stand for the Django ORM exceptions raised by
`QuerySet.get`. -/
inductive PyExcType where
  | nameError
  | valueError
  | exception
  | doesNotExist
  | multipleObjectsReturned
  deriving DecidableEq, Repr

/-- A raised Python exception: its runtime type together with its message.
Callers that catch by type see only `type`; the message is the only other
observable. -/
structure PyError where
  type : PyExcType
  msg : String
  deriving DecidableEq, Repr

/-! ## Post record (src/backend/posts/models.py) -/

/-- The `Post` model fields.  `share_now` is a nullable boolean
(tri-state), the timestamp fields are nullable, `user` is the foreign key
to the owning account. -/
structure Post where
  user : Nat
  content : String
  share_now : Option Bool
  share_at : Option Nat
  share_start_at : Option Nat
  share_complete_at : Option Nat
  share_on_linkedin : Bool
  shared_at_linkedin : Option Nat
  updated_at : Option Nat
  created_at : Option Nat
  deriving DecidableEq, Repr

/-- The `do_schedule_post` flag computed in the pre-save block of
`Post.save`: true if (`share_now` is not None or `share_at` is not None)
and both `share_complete_at` and `share_start_at` are None.  In the source
it is computed and then never read again. -/
def do_schedule_post (p : Post) : Bool :=
  (p.share_now.isSome || p.share_at.isSome) &&
    (p.share_complete_at.isNone && p.share_start_at.isNone)

/-- The exception actually raised when `Post.save` evaluates
`timezone.now()`: `models.py` imports only `django.db.models` and
`django.conf.settings`, so the bare name `timezone` is unresolvable and
Python raises `NameError` before assigning `share_at`. -/
def timezoneNameError : PyError :=
  ⟨PyExcType.nameError, "timezone is not defined"⟩

/-- `Post.save`.  `now` is the current wall-clock time and `isInsert`
tells whether this save inserts a new row (Django passes this to the
`auto_now_add` machinery).  The pre-save block computes `do_schedule_post`
(discarded, as in the source); then, if `share_now` is truthy, the source
evaluates `timezone.now()`, which raises `NameError` because `timezone` is
never imported; otherwise the row is persisted with `updated_at` refreshed
(`auto_now`) and `created_at` stamped on insert (`auto_now_add`). -/
def Post.save (p : Post) (now : Nat) (isInsert : Bool) : Except PyError Post :=
  let _dsp := do_schedule_post p
  if p.share_now = some true then
    Except.error timezoneNameError
  else
    Except.ok { p with
      updated_at := some now,
      created_at := if isInsert then some now else p.created_at }

/-! ## LinkedIn share client (src/backend/helpers/linkedin.py) -/

/-- One `SocialAccount` row of the external social-auth store: the
provider name, the external member identifier `uid`, and the associated
`SocialToken` rows (`socialtoken_set`) in storage order. -/
structure SocialAccount where
  provider : String
  uid : String
  tokens : List String
  deriving DecidableEq, Repr

/-- A user together with its `socialaccount_set`. -/
structure UserRec where
  accounts : List SocialAccount
  deriving DecidableEq, Repr

/-- `user.socialaccount_set.filter(provider="linkedin")`. -/
def UserRec.linkedinAccounts (u : UserRec) : List SocialAccount :=
  u.accounts.filter (fun s => s.provider == "linkedin")

/-- The Django ORM exception for `get()` finding no row. -/
def doesNotExistError : PyError :=
  ⟨PyExcType.doesNotExist, "SocialAccount matching query does not exist."⟩

/-- The Django ORM exception for `get()` finding more than one row. -/
def multipleObjectsError : PyError :=
  ⟨PyExcType.multipleObjectsReturned, "get returned more than one SocialAccount"⟩

/-- `user.socialaccount_set.get(provider="linkedin")`: succeeds exactly
when the filtered set has exactly one row, raising `DoesNotExist` on zero
rows and `MultipleObjectsReturned` on two or more. -/
def socialaccount_get_linkedin (u : UserRec) : Except PyError SocialAccount :=
  match u.linkedinAccounts with
  | [] => Except.error doesNotExistError
  | [a] => Except.ok a
  | _ :: _ :: _ => Except.error multipleObjectsError

/-- The exception actually raised by the `except` block of
`get_linkedin_user_details`: the handler executes
`raise UserNotConnectedLinkedIn(...)`, but that name is neither defined in
`linkedin.py` nor imported, so evaluating it raises `NameError`. -/
def userNotConnectedNameError : PyError :=
  ⟨PyExcType.nameError, "UserNotConnectedLinkedIn is not defined"⟩

/-- `get_linkedin_user_details(user)`: a bare `except` around the ORM
`get`; on any lookup failure the handler itself raises `NameError`
(see `userNotConnectedNameError`), otherwise the matching record is
returned. -/
def get_linkedin_user_details (u : UserRec) : Except PyError SocialAccount :=
  match socialaccount_get_linkedin u with
  | Except.ok a => Except.ok a
  | Except.error _ => Except.error userNotConnectedNameError

/-- The exception raised by `get_share_headers` when the identity has no
tokens.  The double space after "LinkedIn" reproduces the source string. -/
def invalidConnectionError : PyError :=
  ⟨PyExcType.exception, "LinkedIn  connection is invalid. Please login again."⟩

/-- `get_share_headers(linkedin_social)`: fetch `socialtoken_set.all()`;
if empty raise the invalid-connection `Exception`; otherwise build the
header set from the first token in storage order. -/
def get_share_headers (a : SocialAccount) :
    Except PyError (List (String × String)) :=
  match a.tokens with
  | [] => Except.error invalidConnectionError
  | t :: _ =>
    Except.ok [("Authorization", "Bearer " ++ t),
               ("X-Restli-Protocol-Version", "2.0.0")]

/-- JSON values, as far as the share payload needs them: strings and
objects with ordered string keys. -/
inductive Json where
  | str : String → Json
  | obj : List (String × Json) → Json

/-- Look up a key in a JSON object (first occurrence); `none` on a
non-object or a missing key. -/
def Json.lookup (j : Json) (k : String) : Option Json :=
  match j with
  | Json.obj fields => fields.lookup k
  | Json.str _ => none

/-- The `payload` dictionary literal of `share_to_linkedin`, with the
`author` f-string spliced with the member id and the `text` f-string
spliced with the input text. -/
def sharePayload (uid text : String) : Json :=
  Json.obj [
    ("author", Json.str ("urn:li:person:" ++ uid)),
    ("lifecycleState", Json.str "PUBLISHED"),
    ("specificContent", Json.obj [
      ("com.linkedin.ugc.ShareContent", Json.obj [
        ("shareCommentary", Json.obj [("text", Json.str text)]),
        ("shareMediaCategory", Json.str "NONE")])]),
    ("visibility", Json.obj [
      ("com.linkedin.ugc.MemberNetworkVisibility", Json.str "PUBLIC")])]

/-- An outbound HTTP request as `requests.post(endpoint, json=payload,
headers=headers)` issues it. -/
structure HttpRequest where
  method : String
  url : String
  headers : List (String × String)
  body : Json

/-- The final HTTP response (after the HTTP client has followed any
redirects): status code and body. -/
structure HttpResponse where
  status : Nat
  body : String
  deriving DecidableEq, Repr

/-- The network, modelled as an oracle from request to final response. -/
structure Env where
  http : HttpRequest → HttpResponse

/-- The `ValueError` raised by the existence check at the top of
`share_to_linkedin`. -/
def valueErrorNotLinked : PyError :=
  ⟨PyExcType.valueError, "User is not linked to LinkedIn"⟩

/-- The `Exception` raised when `linkedin_social.uid` is falsy. -/
def invalidUserIdError : PyError :=
  ⟨PyExcType.exception, "Invalid LinkedIn User Id"⟩

/-- The `Exception` raised when `response.raise_for_status()` throws; the
original status code and body are discarded. -/
def shareFailedError : PyError :=
  ⟨PyExcType.exception, "Invalid post, please try again later"⟩

/-- The share endpoint URL. -/
def ugcPostsEndpoint : String := "https://api.linkedin.com/v2/ugcPosts"

/-- `share_to_linkedin(user, text)`.  Returns the result together with the
trace of HTTP requests issued.  Steps, exactly as in the source: the
redundant existence check (`ValueError` if no linkedin account); the ORM
`get` (whose `DoesNotExist` cannot fire after the check, but whose
`MultipleObjectsReturned` propagates uncaught); the falsy-uid check; header
construction via `get_share_headers`; one POST of the payload; and
`raise_for_status`, which in the `requests` library raises exactly for
status codes in `[400, 600)`, rewrapped as the generic share-failed
`Exception`. -/
def share_to_linkedin (env : Env) (u : UserRec) (text : String) :
    Except PyError HttpResponse × List HttpRequest :=
  if u.linkedinAccounts.isEmpty then
    (Except.error valueErrorNotLinked, [])
  else
    match socialaccount_get_linkedin u with
    | Except.error e => (Except.error e, [])
    | Except.ok linkedin_social =>
      let linkedin_user_id := linkedin_social.uid
      if linkedin_user_id == "" then
        (Except.error invalidUserIdError, [])
      else
        match get_share_headers linkedin_social with
        | Except.error e => (Except.error e, [])
        | Except.ok headers =>
          let request : HttpRequest :=
            { method := "POST", url := ugcPostsEndpoint, headers := headers,
              body := sharePayload linkedin_user_id text }
          let response := env.http request
          if 400 ≤ response.status ∧ response.status < 600 then
            (Except.error shareFailedError, [request])
          else
            (Except.ok response, [request])

/-- The request `share_to_linkedin` issues once it reaches the network:
POST to the UGC endpoint with the bearer headers built from `token` and
the payload built from `uid` and `text`. -/
def shareRequestOf (uid text token : String) : HttpRequest :=
  { method := "POST", url := ugcPostsEndpoint,
    headers := [("Authorization", "Bearer " ++ token),
                ("X-Restli-Protocol-Version", "2.0.0")],
    body := sharePayload uid text }

/-! ## Concrete fixtures used by witnesses and counterexamples -/

/-- A fully valid linkedin identity: non-empty uid, two tokens. -/
def okAccount : SocialAccount :=
  { provider := "linkedin", uid := "abc123", tokens := ["tok1", "tok2"] }

/-- A user holding exactly the valid identity. -/
def okUser : UserRec := { accounts := [okAccount] }

/-- A user with no social accounts at all. -/
def noLinkedinUser : UserRec := { accounts := [] }

/-- A linkedin identity with a valid uid but zero tokens. -/
def noTokenAccount : SocialAccount :=
  { provider := "linkedin", uid := "abc123", tokens := [] }

/-- A user holding only the token-less identity. -/
def noTokenUser : UserRec := { accounts := [noTokenAccount] }

/-- A linkedin identity whose uid is empty but which has a token. -/
def emptyUidAccount : SocialAccount :=
  { provider := "linkedin", uid := "", tokens := ["tok1"] }

/-- A user holding only the empty-uid identity. -/
def emptyUidUser : UserRec := { accounts := [emptyUidAccount] }

/-- A linkedin identity with empty uid and zero tokens. -/
def bareAccount : SocialAccount :=
  { provider := "linkedin", uid := "", tokens := [] }

/-- A user holding only the bare identity. -/
def bareUser : UserRec := { accounts := [bareAccount] }

/-- A network that answers every request with 201 Created. -/
def env201 : Env := ⟨fun _ => { status := 201, body := "created" }⟩

/-- A network that answers every request with 500. -/
def env500 : Env := ⟨fun _ => { status := 500, body := "server error" }⟩

/-- A network that answers every request with 304 Not Modified. -/
def env304 : Env := ⟨fun _ => { status := 304, body := "not modified" }⟩

/-- A fresh post with `share_now` set to True. -/
def postShareNow : Post :=
  { user := 1, content := "hello", share_now := some true, share_at := none,
    share_start_at := none, share_complete_at := none,
    share_on_linkedin := true, shared_at_linkedin := none,
    updated_at := none, created_at := none }

/-- The same post with `share_now` left unset. -/
def postPlain : Post := { postShareNow with share_now := none }

/-- `postPlain` as persisted by an insert at time 7. -/
def postPlainSaved : Post :=
  { postPlain with updated_at := some 7, created_at := some 7 }

/-! ## Helper lemmas -/

/-- When the filtered set is a single account, the ORM `get` returns it. -/
theorem socialaccount_get_of_one (u : UserRec) (a : SocialAccount)
    (hone : u.linkedinAccounts = [a]) :
    socialaccount_get_linkedin u = Except.ok a := by
  unfold socialaccount_get_linkedin
  rw [hone]

/-- With at least one token, the header set is built from the first. -/
theorem get_share_headers_of_tokens (a : SocialAccount) (t : String)
    (rest : List String) (htok : a.tokens = t :: rest) :
    get_share_headers a =
      Except.ok [("Authorization", "Bearer " ++ t),
                 ("X-Restli-Protocol-Version", "2.0.0")] := by
  unfold get_share_headers
  rw [htok]

/-- The only error `get_share_headers` can raise is the
invalid-connection one. -/
theorem get_share_headers_error_eq (a : SocialAccount) (e : PyError)
    (h : get_share_headers a = Except.error e) : e = invalidConnectionError := by
  unfold get_share_headers at h
  split at h
  · injection h with h
    exact h.symm
  · exact Except.noConfusion h

/-- Once the identity is unique, the uid non-empty and a token present,
`share_to_linkedin` issues exactly the request `shareRequestOf` and the
outcome depends only on the status of the response. -/
theorem share_to_linkedin_main (env : Env) (u : UserRec) (text : String)
    (a : SocialAccount) (t : String) (rest : List String)
    (hone : u.linkedinAccounts = [a]) (huid : a.uid ≠ "")
    (htok : a.tokens = t :: rest) :
    share_to_linkedin env u text =
      (if 400 ≤ (env.http (shareRequestOf a.uid text t)).status ∧
          (env.http (shareRequestOf a.uid text t)).status < 600 then
         (Except.error shareFailedError, [shareRequestOf a.uid text t])
       else
         (Except.ok (env.http (shareRequestOf a.uid text t)),
          [shareRequestOf a.uid text t])) := by
  have hget := socialaccount_get_of_one u a hone
  have hhead := get_share_headers_of_tokens a t rest htok
  have hbe : (a.uid == "") = false := beq_eq_false_iff_ne.mpr huid
  simp only [share_to_linkedin, hone, hget, hhead, List.isEmpty_cons, hbe,
    Bool.false_eq_true, if_false, shareRequestOf]

/-! ## Claims about the Post record -/

/-- Claim C1 (code bug): the claim says every save with truthy `share_now`
overwrites `share_at` with the current time; the code instead raises
`NameError` when it evaluates `timezone.now()`, because `models.py` never
imports `timezone`.  Every save of a post with `share_now = True` fails
with that `NameError` and nothing is persisted. -/
theorem C1_save_share_now_raises_nameerror (p : Post) (now : Nat)
    (isInsert : Bool) (h : p.share_now = some true) :
    Post.save p now isInsert = Except.error timezoneNameError ∧
    timezoneNameError.type = PyExcType.nameError := by
  refine ⟨?_, rfl⟩
  simp only [Post.save]
  rw [if_pos h]

/-- Witness for C1 at a concrete post with `share_now = True`. -/
theorem C1_save_share_now_raises_nameerror_witness :
    postShareNow.share_now = some true ∧
    (Post.save postShareNow 5 true = Except.error timezoneNameError ∧
     timezoneNameError.type = PyExcType.nameError) :=
  ⟨rfl, C1_save_share_now_raises_nameerror postShareNow 5 true rfl⟩

/-- Claim C9: `Post.save` changes no field other than `share_at` and the
framework timestamps; on every save that persists, `user`, `content`,
`share_now`, `share_on_linkedin`, `share_start_at`, `share_complete_at`
and `shared_at_linkedin` are unchanged, and `share_at` is unchanged
whenever `share_now` is not truthy (in the code a save persists exactly
when `share_now` is not truthy). -/
theorem C9_save_frame (p : Post) (now : Nat) (isInsert : Bool) (q : Post)
    (h : Post.save p now isInsert = Except.ok q) :
    q.user = p.user ∧ q.content = p.content ∧ q.share_now = p.share_now ∧
    q.share_on_linkedin = p.share_on_linkedin ∧
    q.share_start_at = p.share_start_at ∧
    q.share_complete_at = p.share_complete_at ∧
    q.shared_at_linkedin = p.shared_at_linkedin ∧
    q.share_at = p.share_at := by
  simp only [Post.save] at h
  split at h
  · exact Except.noConfusion h
  · injection h with h
    subst h
    exact ⟨rfl, rfl, rfl, rfl, rfl, rfl, rfl, rfl⟩

/-- Witness for C9 at a concrete save. -/
theorem C9_save_frame_witness :
    Post.save postPlain 7 true = Except.ok postPlainSaved ∧
    (postPlainSaved.user = postPlain.user ∧
     postPlainSaved.content = postPlain.content ∧
     postPlainSaved.share_now = postPlain.share_now ∧
     postPlainSaved.share_on_linkedin = postPlain.share_on_linkedin ∧
     postPlainSaved.share_start_at = postPlain.share_start_at ∧
     postPlainSaved.share_complete_at = postPlain.share_complete_at ∧
     postPlainSaved.shared_at_linkedin = postPlain.shared_at_linkedin ∧
     postPlainSaved.share_at = postPlain.share_at) :=
  ⟨rfl, C9_save_frame postPlain 7 true postPlainSaved rfl⟩

/-! ## Claims about the LinkedIn share client -/

/-- Claim C3 (code bug): the claim says `get_linkedin_user_details` fails
with the domain kind `UserNotConnectedLinkedIn` whenever the lookup fails;
the code instead raises `NameError`, because the handler re-raises a name
that is neither defined nor imported in `linkedin.py`.  Any lookup error
at all is turned into that `NameError`. -/
theorem C3_lookup_failure_raises_nameerror (u : UserRec) (e : PyError)
    (herr : socialaccount_get_linkedin u = Except.error e) :
    get_linkedin_user_details u = Except.error userNotConnectedNameError ∧
    userNotConnectedNameError.type = PyExcType.nameError := by
  refine ⟨?_, rfl⟩
  unfold get_linkedin_user_details
  rw [herr]

/-- Witness for C3 at a user with no social accounts. -/
theorem C3_lookup_failure_raises_nameerror_witness :
    socialaccount_get_linkedin noLinkedinUser = Except.error doesNotExistError ∧
    (get_linkedin_user_details noLinkedinUser =
       Except.error userNotConnectedNameError ∧
     userNotConnectedNameError.type = PyExcType.nameError) :=
  ⟨rfl, C3_lookup_failure_raises_nameerror noLinkedinUser doesNotExistError rfl⟩

/-- Claim C5: for a user with no linkedin identity, `share_to_linkedin`
fails with the invalid-input kind (`ValueError`) raised by the existence
check, and the HTTP trace is empty: no call was attempted. -/
theorem C5_no_identity_value_error (env : Env) (u : UserRec) (text : String)
    (h : u.linkedinAccounts = []) :
    share_to_linkedin env u text = (Except.error valueErrorNotLinked, []) ∧
    valueErrorNotLinked.type = PyExcType.valueError ∧
    valueErrorNotLinked.msg = "User is not linked to LinkedIn" := by
  refine ⟨?_, rfl, rfl⟩
  unfold share_to_linkedin
  rw [h]
  rfl

/-- Witness for C5 at a user with no accounts. -/
theorem C5_no_identity_value_error_witness :
    noLinkedinUser.linkedinAccounts = [] ∧
    (share_to_linkedin env201 noLinkedinUser "hi" =
       (Except.error valueErrorNotLinked, []) ∧
     valueErrorNotLinked.type = PyExcType.valueError ∧
     valueErrorNotLinked.msg = "User is not linked to LinkedIn") :=
  ⟨rfl, C5_no_identity_value_error env201 noLinkedinUser "hi" rfl⟩

/-- Claim C7: for a user whose linkedin identity has an empty uid,
`share_to_linkedin` fails with the invalid-LinkedIn-user-id kind and the
HTTP trace is empty: no call was made.  This holds regardless of the
tokens, because the uid check precedes header construction. -/
theorem C7_empty_uid_invalid_user_id (env : Env) (u : UserRec) (text : String)
    (a : SocialAccount) (hone : u.linkedinAccounts = [a]) (huid : a.uid = "") :
    share_to_linkedin env u text = (Except.error invalidUserIdError, []) ∧
    invalidUserIdError.type = PyExcType.exception ∧
    invalidUserIdError.msg = "Invalid LinkedIn User Id" := by
  refine ⟨?_, rfl, rfl⟩
  have hget := socialaccount_get_of_one u a hone
  have hbe : (a.uid == "") = true := beq_iff_eq.mpr huid
  simp only [share_to_linkedin, hone, hget, List.isEmpty_cons,
    Bool.false_eq_true, if_false, hbe, if_true]

/-- Witness for C7 at a user whose identity has an empty uid (and a
token, showing the uid check fires first). -/
theorem C7_empty_uid_invalid_user_id_witness :
    emptyUidUser.linkedinAccounts = [emptyUidAccount] ∧
    emptyUidAccount.uid = "" ∧
    (share_to_linkedin env201 emptyUidUser "hi" =
       (Except.error invalidUserIdError, []) ∧
     invalidUserIdError.type = PyExcType.exception ∧
     invalidUserIdError.msg = "Invalid LinkedIn User Id") :=
  ⟨rfl, rfl,
    C7_empty_uid_invalid_user_id env201 emptyUidUser "hi" emptyUidAccount rfl rfl⟩

/-- Claim C2: for a user whose linkedin identity has a non-empty uid and
at least one token, `share_to_linkedin` issues exactly one POST to the UGC
endpoint whose headers are the bearer header built from the first token
plus the protocol-version header, and whose JSON body carries the author
urn, the input text under the exact nested key path, and the literal
constants PUBLISHED, NONE and PUBLIC under the exact key names. -/
theorem C2_request_correct (env : Env) (u : UserRec) (text : String)
    (a : SocialAccount) (t : String) (rest : List String)
    (hone : u.linkedinAccounts = [a]) (huid : a.uid ≠ "")
    (htok : a.tokens = t :: rest) :
    (share_to_linkedin env u text).2 = [shareRequestOf a.uid text t] ∧
    (shareRequestOf a.uid text t).method = "POST" ∧
    (shareRequestOf a.uid text t).url = "https://api.linkedin.com/v2/ugcPosts" ∧
    (shareRequestOf a.uid text t).headers =
      [("Authorization", "Bearer " ++ t),
       ("X-Restli-Protocol-Version", "2.0.0")] ∧
    Json.lookup (shareRequestOf a.uid text t).body "author" =
      some (Json.str ("urn:li:person:" ++ a.uid)) ∧
    (((Json.lookup (shareRequestOf a.uid text t).body "specificContent").bind
        (fun j => Json.lookup j "com.linkedin.ugc.ShareContent")).bind
        (fun j => Json.lookup j "shareCommentary")).bind
        (fun j => Json.lookup j "text") = some (Json.str text) ∧
    Json.lookup (shareRequestOf a.uid text t).body "lifecycleState" =
      some (Json.str "PUBLISHED") ∧
    ((Json.lookup (shareRequestOf a.uid text t).body "specificContent").bind
        (fun j => Json.lookup j "com.linkedin.ugc.ShareContent")).bind
        (fun j => Json.lookup j "shareMediaCategory") =
      some (Json.str "NONE") ∧
    (Json.lookup (shareRequestOf a.uid text t).body "visibility").bind
        (fun j => Json.lookup j "com.linkedin.ugc.MemberNetworkVisibility") =
      some (Json.str "PUBLIC") := by
  refine ⟨?_, rfl, rfl, rfl, rfl, rfl, rfl, rfl, rfl⟩
  rw [share_to_linkedin_main env u text a t rest hone huid htok]
  split
  · rfl
  · rfl

/-- Witness for C2 at the valid fixture user and the text Hello world. -/
theorem C2_request_correct_witness :
    okUser.linkedinAccounts = [okAccount] ∧ okAccount.uid ≠ "" ∧
    okAccount.tokens = "tok1" :: ["tok2"] ∧
    (share_to_linkedin env201 okUser "Hello world").2 =
      [shareRequestOf okAccount.uid "Hello world" "tok1"] ∧
    Json.lookup (shareRequestOf okAccount.uid "Hello world" "tok1").body
        "author" = some (Json.str ("urn:li:person:" ++ okAccount.uid)) :=
  ⟨rfl, by decide, rfl,
    (C2_request_correct env201 okUser "Hello world" okAccount "tok1" ["tok2"]
      rfl (by decide) rfl).1,
    (C2_request_correct env201 okUser "Hello world" okAccount "tok1" ["tok2"]
      rfl (by decide) rfl).2.2.2.2.1⟩

/-- Counterexample to claim C4 as stated: a 304 response is not 2xx, yet
`share_to_linkedin` succeeds and returns it, because `raise_for_status`
only raises for statuses in `[400, 600)`.  At the valid fixture user with
the all-304 network, the result is the raw 304 response, not the
share-failed error. -/
theorem C4_counterexample :
    ((env304.http (shareRequestOf okAccount.uid "hi" "tok1")).status < 200 ∨
     300 ≤ (env304.http (shareRequestOf okAccount.uid "hi" "tok1")).status) ∧
    (share_to_linkedin env304 okUser "hi").1 =
      Except.ok { status := 304, body := "not modified" } ∧
    (share_to_linkedin env304 okUser "hi").1 ≠
      Except.error shareFailedError := by
  refine ⟨Or.inr (by decide), rfl, ?_⟩
  intro h
  rw [show (share_to_linkedin env304 okUser "hi").1 =
        Except.ok { status := 304, body := "not modified" } from rfl] at h
  exact Except.noConfusion h

/-- Claim C4 as amended: once the request is issued, `share_to_linkedin`
fails with the constant share-failed `Exception` (discarding the status
and body) exactly when the response status lies in `[400, 600)` — the
range `raise_for_status` raises for — and returns the raw response for
any other status. -/
theorem C4_amended_fail_range (env : Env) (u : UserRec) (text : String)
    (a : SocialAccount) (t : String) (rest : List String)
    (hone : u.linkedinAccounts = [a]) (huid : a.uid ≠ "")
    (htok : a.tokens = t :: rest) :
    (400 ≤ (env.http (shareRequestOf a.uid text t)).status ∧
       (env.http (shareRequestOf a.uid text t)).status < 600 →
     share_to_linkedin env u text =
       (Except.error shareFailedError, [shareRequestOf a.uid text t])) ∧
    (¬(400 ≤ (env.http (shareRequestOf a.uid text t)).status ∧
         (env.http (shareRequestOf a.uid text t)).status < 600) →
     share_to_linkedin env u text =
       (Except.ok (env.http (shareRequestOf a.uid text t)),
        [shareRequestOf a.uid text t])) ∧
    shareFailedError.type = PyExcType.exception ∧
    shareFailedError.msg = "Invalid post, please try again later" := by
  refine ⟨?_, ?_, rfl, rfl⟩
  · intro h
    rw [share_to_linkedin_main env u text a t rest hone huid htok, if_pos h]
  · intro h
    rw [share_to_linkedin_main env u text a t rest hone huid htok, if_neg h]

/-- Witness for the amended C4 at the all-500 network. -/
theorem C4_amended_fail_range_witness :
    okUser.linkedinAccounts = [okAccount] ∧ okAccount.uid ≠ "" ∧
    okAccount.tokens = "tok1" :: ["tok2"] ∧
    (400 ≤ (env500.http (shareRequestOf okAccount.uid "hi" "tok1")).status ∧
     (env500.http (shareRequestOf okAccount.uid "hi" "tok1")).status < 600) ∧
    share_to_linkedin env500 okUser "hi" =
      (Except.error shareFailedError, [shareRequestOf okAccount.uid "hi" "tok1"]) :=
  ⟨rfl, by decide, rfl, by decide,
    (C4_amended_fail_range env500 okUser "hi" okAccount "tok1" ["tok2"]
      rfl (by decide) rfl).1 (by decide)⟩

/-- Counterexample to claim C6 as stated: for an identity with zero
tokens whose uid is also empty, `share_to_linkedin` fails with the
invalid-LinkedIn-user-id kind, not the invalid-connection kind, because
the uid check precedes header construction. -/
theorem C6_counterexample :
    bareAccount.tokens = [] ∧
    share_to_linkedin env201 bareUser "hi" =
      (Except.error invalidUserIdError, []) ∧
    invalidUserIdError ≠ invalidConnectionError :=
  ⟨rfl, rfl, by decide⟩

/-- Claim C6 as amended: for every identity with zero tokens,
`get_share_headers` fails with the invalid-connection kind; and for a user
whose unique linkedin identity has a non-empty uid and zero tokens,
`share_to_linkedin` fails with that same kind with an empty HTTP trace —
no call is made. -/
theorem C6_amended_no_tokens :
    (∀ b : SocialAccount, b.tokens = [] →
       get_share_headers b = Except.error invalidConnectionError ∧
       invalidConnectionError.type = PyExcType.exception) ∧
    (∀ (env : Env) (u : UserRec) (text : String) (a : SocialAccount),
       u.linkedinAccounts = [a] → a.uid ≠ "" → a.tokens = [] →
       share_to_linkedin env u text =
         (Except.error invalidConnectionError, [])) := by
  constructor
  · intro b hb
    refine ⟨?_, rfl⟩
    unfold get_share_headers
    rw [hb]
  · intro env u text a hone huid htok
    have hget := socialaccount_get_of_one u a hone
    have hhdr : get_share_headers a = Except.error invalidConnectionError := by
      unfold get_share_headers
      rw [htok]
    have hbe : (a.uid == "") = false := beq_eq_false_iff_ne.mpr huid
    simp only [share_to_linkedin, hone, hget, List.isEmpty_cons,
      Bool.false_eq_true, if_false, hbe, hhdr]

/-- Witness for the amended C6 at the token-less fixture. -/
theorem C6_amended_no_tokens_witness :
    noTokenAccount.tokens = [] ∧
    noTokenUser.linkedinAccounts = [noTokenAccount] ∧
    noTokenAccount.uid ≠ "" ∧
    (get_share_headers noTokenAccount = Except.error invalidConnectionError ∧
     invalidConnectionError.type = PyExcType.exception) ∧
    share_to_linkedin env201 noTokenUser "hi" =
      (Except.error invalidConnectionError, []) :=
  ⟨rfl, rfl, by decide,
    C6_amended_no_tokens.1 noTokenAccount rfl,
    C6_amended_no_tokens.2 env201 noTokenUser "hi" noTokenAccount rfl
      (by decide) rfl⟩

/-- Claim C8: when the response status is 2xx, `share_to_linkedin`
returns the raw response of the network oracle unchanged — nothing of the
body is parsed — and the trace holds exactly one request.  The function
reads the identity and token store and writes nothing: its result is only
the response and the trace, and no Post field is touched. -/
theorem C8_success_returns_raw (env : Env) (u : UserRec) (text : String)
    (a : SocialAccount) (t : String) (rest : List String)
    (hone : u.linkedinAccounts = [a]) (huid : a.uid ≠ "")
    (htok : a.tokens = t :: rest)
    (h2xx : 200 ≤ (env.http (shareRequestOf a.uid text t)).status ∧
            (env.http (shareRequestOf a.uid text t)).status < 300) :
    share_to_linkedin env u text =
      (Except.ok (env.http (shareRequestOf a.uid text t)),
       [shareRequestOf a.uid text t]) := by
  rw [share_to_linkedin_main env u text a t rest hone huid htok,
    if_neg (by omega)]

/-- Witness for C8 at the all-201 network. -/
theorem C8_success_returns_raw_witness :
    okUser.linkedinAccounts = [okAccount] ∧ okAccount.uid ≠ "" ∧
    okAccount.tokens = "tok1" :: ["tok2"] ∧
    (200 ≤ (env201.http (shareRequestOf okAccount.uid "hi" "tok1")).status ∧
     (env201.http (shareRequestOf okAccount.uid "hi" "tok1")).status < 300) ∧
    share_to_linkedin env201 okUser "hi" =
      (Except.ok (env201.http (shareRequestOf okAccount.uid "hi" "tok1")),
       [shareRequestOf okAccount.uid "hi" "tok1"]) :=
  ⟨rfl, by decide, rfl, by decide,
    C8_success_returns_raw env201 okUser "hi" okAccount "tok1" ["tok2"]
      rfl (by decide) rfl (by decide)⟩

/-- Claim C10: past the existence check (here: the user has a unique
linkedin identity), every failure of `share_to_linkedin` carries the bare
`Exception` runtime type — the invalid-connection, invalid-user-id and
share-failed kinds are indistinguishable by type and distinguishable only
by their pairwise-distinct message strings, so a caller catching one of
them by type catches all three. -/
theorem C10_error_type_uniform (env : Env) (u : UserRec) (text : String)
    (a : SocialAccount) (e : PyError) (tr : List HttpRequest)
    (hone : u.linkedinAccounts = [a])
    (hfail : share_to_linkedin env u text = (Except.error e, tr)) :
    e.type = PyExcType.exception ∧
    invalidConnectionError.type = PyExcType.exception ∧
    invalidUserIdError.type = PyExcType.exception ∧
    shareFailedError.type = PyExcType.exception ∧
    invalidConnectionError.msg ≠ invalidUserIdError.msg ∧
    invalidConnectionError.msg ≠ shareFailedError.msg ∧
    invalidUserIdError.msg ≠ shareFailedError.msg := by
  refine ⟨?_, rfl, rfl, rfl, by decide, by decide, by decide⟩
  have hget := socialaccount_get_of_one u a hone
  simp only [share_to_linkedin, hone, hget, List.isEmpty_cons,
    Bool.false_eq_true, if_false] at hfail
  split at hfail
  · injection hfail with h1 h2
    injection h1 with h1
    exact h1 ▸ rfl
  · split at hfail
    · rename_i e' heq
      have he' := get_share_headers_error_eq a e' heq
      injection hfail with h1 h2
      injection h1 with h1
      rw [← h1, he']
      rfl
    · split at hfail
      · injection hfail with h1 h2
        injection h1 with h1
        exact h1 ▸ rfl
      · injection hfail with h1 h2
        exact Except.noConfusion h1

/-- Witness for C10 at a failing run past the existence check (the
token-less fixture user). -/
theorem C10_error_type_uniform_witness :
    noTokenUser.linkedinAccounts = [noTokenAccount] ∧
    share_to_linkedin env201 noTokenUser "hi" =
      (Except.error invalidConnectionError, []) ∧
    invalidConnectionError.type = PyExcType.exception :=
  ⟨rfl, rfl,
    (C10_error_type_uniform env201 noTokenUser "hi" noTokenAccount
      invalidConnectionError [] rfl rfl).1⟩

end SocialAutomation
